import Mathlib

/-!
Verification development for the peregovorki room-booking service
(source: src/bot.py).  The SQLite-backed reservation store, the
conflict policy, the booking and admin-block workflow handlers, and
the reminder scheduler are shallowly embedded as executable Lean
definitions; datetimes are modelled as integer seconds on a linear
time axis (a calendar date is an integer day number, and
`combine_date_time` places an hour:minute on that day), which is
faithful to the ordering and arithmetic the source performs on
`datetime` values and Unix timestamps.
-/

/-! ## Constants (src/bot.py lines 56-59) -/

def WORK_START_HOUR : Nat := 6

def WORK_END_HOUR : Nat := 24

def MIN_DURATION_MINUTES : Int := 10

def PLANNING_DAYS : Int := 120

/-- Room catalog (src/bot.py line 51): callback keys to display names. -/
def ROOMS : List (String × String) := [("ROOM3", "3 этаж"), ("ROOM4", "4 этаж")]

/-! ## Time helpers (src/bot.py lines 77-123)

A `datetime` is modelled as seconds since the epoch, so
`dt_to_ts` and `ts_to_dt` are identities of the model; `timedelta(days=1)`
is 86400 seconds and `timedelta(minutes=k)` is `k * 60` seconds. -/

def dt_to_ts (dt : Int) : Int := dt

def ts_to_dt (ts : Int) : Int := ts

/-- Model of `datetime(d.year, d.month, d.day, h, m)` for day number `d`:
the instant `h:m` on day `d`, in seconds. -/
def combine_date_time (d : Int) (h m : Nat) : Int :=
  ((d * 24 + (h : Int)) * 60 + (m : Int)) * 60

/-! ## Data model: the bookings table (src/bot.py lines 133-160)

One row of the `bookings` table.  `canceled` is stored as 0/1 and
`is_block` as 0/1 in SQLite; they are Booleans here.  Nullable columns
are `Option`. -/

structure Booking where
  id : Nat
  room : String
  start_ts : Int
  end_ts : Int
  user_id : Option Int
  user_full_name : Option String
  user_contact : Option String
  topic : Option String
  is_block : Bool
  block_reason : Option String
  canceled : Bool
  canceled_at : Option Int
  created_at : Int
deriving DecidableEq, Repr

/-- The store: the table rows plus the SQLite AUTOINCREMENT sequence
value (largest id ever assigned; `DELETE FROM bookings` does not reset
it, so fresh ids always exceed it). -/
structure BookingStorage where
  rows : List Booking
  seq : Nat
deriving DecidableEq, Repr

/-- ORDER BY start_ts (stable). -/
def sortByStart (l : List Booking) : List Booking :=
  l.mergeSort (fun a b => decide (a.start_ts ≤ b.start_ts))

/-- ORDER BY room, start_ts (stable). -/
def sortByRoomStart (l : List Booking) : List Booking :=
  l.mergeSort (fun a b =>
    decide (a.room < b.room) || (a.room == b.room && decide (a.start_ts ≤ b.start_ts)))

/-! ## Storage operations (src/bot.py lines 163-318) -/

/-- INSERT of a new row (src/bot.py `create_booking`, lines 163-197):
assigns the next AUTOINCREMENT id, `canceled = 0`, `created_at = t`
(the current clock, `int(time.time())`).  Returns the new store and
`cur.lastrowid`. -/
def BookingStorage.create_booking (db : BookingStorage) (room : String)
    (start_dt end_dt : Int) (user_id : Option Int)
    (user_full_name user_contact topic : Option String)
    (is_block : Bool) (block_reason : Option String) (t : Int) :
    BookingStorage × Nat :=
  let new_id := db.seq + 1
  ({ rows := db.rows ++
      [{ id := new_id, room := room, start_ts := dt_to_ts start_dt,
         end_ts := dt_to_ts end_dt, user_id := user_id,
         user_full_name := user_full_name, user_contact := user_contact,
         topic := topic, is_block := is_block, block_reason := block_reason,
         canceled := false, canceled_at := none, created_at := t }],
     seq := new_id }, new_id)

/-- UPDATE bookings SET canceled = 1, canceled_at = t WHERE id = ?
(src/bot.py lines 199-205). -/
def BookingStorage.cancel_booking (db : BookingStorage) (t : Int)
    (booking_id : Nat) : BookingStorage :=
  { db with rows := db.rows.map (fun b =>
      if b.id = booking_id then { b with canceled := true, canceled_at := some t }
      else b) }

/-- SELECT * FROM bookings WHERE id = ? with `fetchone`
(src/bot.py lines 207-210). -/
def BookingStorage.get_booking (db : BookingStorage) (booking_id : Nat) :
    Option Booking :=
  db.rows.find? (fun b => b.id == booking_id)

/-- SELECT with user_id = ?, canceled = 0, is_block = 0, start_ts >= now,
ORDER BY start_ts (src/bot.py lines 212-222). -/
def BookingStorage.get_user_future_bookings (db : BookingStorage)
    (user_id : Int) (nowTs : Int) : List Booking :=
  sortByStart (db.rows.filter (fun b =>
    decide (b.user_id = some user_id ∧ b.canceled = false ∧
      b.is_block = false ∧ nowTs ≤ b.start_ts)))

/-- SELECT with canceled = 0 AND start_ts >= now, no ORDER BY
(src/bot.py lines 224-233). -/
def BookingStorage.get_future_bookings (db : BookingStorage) (nowTs : Int) :
    List Booking :=
  db.rows.filter (fun b => decide (b.canceled = false ∧ nowTs ≤ b.start_ts))

/-- Active rows whose interval intersects the calendar day of `d`
(src/bot.py lines 235-259): day window is `[00:00, 23:59]` of `d`;
`room = none` means all rooms (ORDER BY room, start_ts), otherwise the
given room (ORDER BY start_ts). -/
def BookingStorage.get_bookings_for_day (db : BookingStorage)
    (room : Option String) (d : Int) : List Booking :=
  let dayStart := dt_to_ts (combine_date_time d 0 0)
  let dayEnd := dt_to_ts (combine_date_time d 23 59)
  match room with
  | some r =>
      sortByStart (db.rows.filter (fun b =>
        decide (b.room = r ∧ b.canceled = false ∧
          b.start_ts ≤ dayEnd ∧ dayStart ≤ b.end_ts)))
  | none =>
      sortByRoomStart (db.rows.filter (fun b =>
        decide (b.canceled = false ∧ b.start_ts ≤ dayEnd ∧ dayStart ≤ b.end_ts)))

/-- SELECT * FROM bookings ORDER BY start_ts — every row, canceled
included (src/bot.py lines 280-284). -/
def BookingStorage.get_all_bookings (db : BookingStorage) : List Booking :=
  sortByStart db.rows

/-- Conflict query (src/bot.py lines 286-318): active rows of the room
whose half-open interval overlaps `[start_dt, end_dt)`, i.e.
NOT (end_ts <= s OR start_ts >= e).  The `exclude_booking_id`
parameter mirrors the Python truthiness test `if exclude_booking_id:`
(both `None` and 0 take the no-exclusion branch), so it is a `Nat`
with 0 meaning no exclusion. -/
def BookingStorage.check_conflicts (db : BookingStorage) (room : String)
    (start_dt end_dt : Int) (exclude_booking_id : Nat) : List Booking :=
  let s_ts := dt_to_ts start_dt
  let e_ts := dt_to_ts end_dt
  if exclude_booking_id ≠ 0 then
    db.rows.filter (fun b =>
      decide (b.room = room ∧ b.canceled = false ∧ b.id ≠ exclude_booking_id ∧
        ¬(b.end_ts ≤ s_ts ∨ b.start_ts ≥ e_ts)))
  else
    db.rows.filter (fun b =>
      decide (b.room = room ∧ b.canceled = false ∧
        ¬(b.end_ts ≤ s_ts ∨ b.start_ts ≥ e_ts)))

/-- Admin membership test (src/bot.py lines 322-323), over the loaded
ADMIN_IDS set. -/
def is_admin (admins : List Int) (user_id : Int) : Bool :=
  admins.contains user_id

/-! ## Booking workflow handlers (src/bot.py lines 401-736)

Each handler is modelled on the inputs it reads: the already-parsed
message text (`parse_date` / `parse_time` return `None` on malformed
input, modelled as `Option`), the fields of the per-user draft it
consults, and the store.  The result type names the state the
conversation moves to, mirroring the `return BOOK_...` statements. -/

inductive DateStepResult where
  | reprompt_date
  | toStart (d : Int) (shown : List Booking)
deriving DecidableEq, Repr

/-- Date step (src/bot.py `book_choose_date`, lines 444-492): re-prompt
on unparsable date, on a date before today, or on a date more than
PLANNING_DAYS after today; otherwise record the date, surface the
occupancy of the chosen room for that day (read-only), and move to the
start-time step. -/
def book_choose_date (today : Int) (db : BookingStorage) (room : String)
    (parsed : Option Int) : DateStepResult :=
  match parsed with
  | none => .reprompt_date
  | some d =>
    if d < today then .reprompt_date
    else if d > today + PLANNING_DAYS then .reprompt_date
    else .toStart d (db.get_bookings_for_day (some room) d)

inductive StartStepResult where
  | reprompt_start
  | toEnd (start_dt : Int)
deriving DecidableEq, Repr

/-- Start step (src/bot.py `book_choose_start`, lines 495-517):
re-prompt on unparsable time or an hour outside
[WORK_START_HOUR, WORK_END_HOUR); otherwise the start instant is the
chosen hour:minute on the drafted date `d`.  No comparison against the
current clock is made. -/
def book_choose_start (d : Int) (parsed : Option (Nat × Nat)) :
    StartStepResult :=
  match parsed with
  | none => .reprompt_start
  | some (h, m) =>
    if h < WORK_START_HOUR ∨ WORK_END_HOUR ≤ h then .reprompt_start
    else .toEnd (combine_date_time d h m)

inductive EndStepResult where
  | reprompt_end
  | rewind_start (conflicts : List Booking)
  | toTopic (end_dt : Int)
deriving DecidableEq, Repr

/-- End step (src/bot.py `book_choose_end`, lines 520-584), for drafted
date `d` and start instant `start_dt` in room `room`: re-prompt on
unparsable time; re-prompt when the hour is at most WORK_START_HOUR
unless the input is exactly 00:00; re-prompt unless the end instant is
strictly after the start; re-prompt when the duration is under
MIN_DURATION_MINUTES; re-prompt when the end lies past WORK_END_HOUR
(for parsed hours, which never exceed 23, this test never fires).
Then the conflict query runs: on conflicts the conversation rewinds to
the start-time step with the overlapping rows surfaced; otherwise the
end is recorded and the topic step follows. -/
def book_choose_end (db : BookingStorage) (room : String) (d : Int)
    (start_dt : Int) (parsed : Option (Nat × Nat)) : EndStepResult :=
  match parsed with
  | none => .reprompt_end
  | some (h, m) =>
    if h ≤ WORK_START_HOUR ∧ ¬(h = 0 ∧ m = 0) then .reprompt_end
    else
      let end_dt := combine_date_time d h m
      if end_dt ≤ start_dt then .reprompt_end
      else if end_dt - start_dt < MIN_DURATION_MINUTES * 60 then .reprompt_end
      else if WORK_END_HOUR < h ∨ (h = WORK_END_HOUR ∧ 0 < m) then .reprompt_end
      else
        let conflicts := db.check_conflicts room start_dt end_dt 0
        if conflicts ≠ [] then .rewind_start conflicts
        else .toTopic end_dt

/-- The draft as it stands at the confirm step: all fields collected by
the earlier steps (`context.user_data["booking"]`). -/
structure BookingDraft where
  room : String
  start_dt : Int
  end_dt : Int
  topic : Option String
  user_full_name : String
  user_contact : String
deriving DecidableEq, Repr

inductive ConfirmOutcome where
  | canceled_by_user
  | draft_missing
  | time_just_taken
  | committed (booking_id : Nat)
deriving DecidableEq, Repr

/-- Confirm step (src/bot.py `book_confirm`, lines 655-728).  Input is
the pressed button (`confirm_ok = false` is CONFIRM_CANCEL) and the
draft (`none` when `context.user_data.get("booking")` is missing or
empty).  On CONFIRM_OK the conflict check is re-run against the final
interval: any conflict terminates the conversation with the
time-just-taken outcome and the store untouched (the draft is dropped).
Otherwise exactly one row is inserted via `create_booking` with the
acting user as owner, and `schedule_reminder_for_booking` is asked to
arm a timer for the new id — the third component carries that request.
In every terminal path the draft is popped from the user data. -/
def book_confirm (db : BookingStorage) (confirm_ok : Bool)
    (draft : Option BookingDraft) (uid : Int) (t : Int) :
    BookingStorage × ConfirmOutcome × Option Nat :=
  if ¬confirm_ok then (db, .canceled_by_user, none)
  else
    match draft with
    | none => (db, .draft_missing, none)
    | some b =>
      let conflicts := db.check_conflicts b.room b.start_dt b.end_dt 0
      if conflicts ≠ [] then (db, .time_just_taken, none)
      else
        let r := db.create_booking b.room b.start_dt b.end_dt (some uid)
          (some b.user_full_name) (some b.user_contact) b.topic false none t
        (r.1, .committed r.2, some r.2)

/-! ## Cancel command (src/bot.py lines 770-823) -/

inductive CancelCmdResult where
  | no_args
  | bad_id
  | not_found
  | not_allowed
  | already_started
  | ok
deriving DecidableEq, Repr

/-- Model of `cancel_booking_command`: `arg` is `none` when no argument
was given, `some none` when the argument is not an integer, and
`some (some id)` otherwise.  Checks run in source order: lookup (a
missing or already-canceled row reports not-found), then ownership
(owner or admin), then the started test `now() >= start_dt`, and only
then is the row canceled at clock `t`. -/
def cancel_booking_command (db : BookingStorage) (uid : Int)
    (admins : List Int) (nowDt : Int) (t : Int)
    (arg : Option (Option Nat)) : BookingStorage × CancelCmdResult :=
  match arg with
  | none => (db, .no_args)
  | some none => (db, .bad_id)
  | some (some booking_id) =>
    match db.get_booking booking_id with
    | none => (db, .not_found)
    | some row =>
      if row.canceled then (db, .not_found)
      else if row.user_id ≠ some uid ∧ is_admin admins uid = false then
        (db, .not_allowed)
      else if ts_to_dt row.start_ts ≤ nowDt then (db, .already_started)
      else (db.cancel_booking t booking_id, .ok)

/-! ## Admin block workflow (src/bot.py lines 1103-1188) -/

inductive ABDateResult where
  | reprompt_date
  | toStart (d : Int)
deriving DecidableEq, Repr

/-- Admin-block date step (src/bot.py `admin_block_choose_date`, lines
1103-1113): the only test is that the date parses — no past check and
no planning-horizon check. -/
def admin_block_choose_date (parsed : Option Int) : ABDateResult :=
  match parsed with
  | none => .reprompt_date
  | some d => .toStart d

inductive ABStartResult where
  | reprompt_start
  | toEnd (start_dt : Int)
deriving DecidableEq, Repr

/-- Admin-block start step (src/bot.py `admin_block_choose_start`, lines
1116-1128): the only test is that the time parses — no working-window
check. -/
def admin_block_choose_start (d : Int) (parsed : Option (Nat × Nat)) :
    ABStartResult :=
  match parsed with
  | none => .reprompt_start
  | some (h, m) => .toEnd (combine_date_time d h m)

inductive ABEndResult where
  | reprompt_end
  | toReason (end_dt : Int)
deriving DecidableEq, Repr

/-- Admin-block end step (src/bot.py `admin_block_choose_end`, lines
1131-1161): the time must parse, the end must be strictly after the
start, and the conflict query must come back empty; there is no
working-window check and no minimum duration. -/
def admin_block_choose_end (db : BookingStorage) (room : String) (d : Int)
    (start_dt : Int) (parsed : Option (Nat × Nat)) : ABEndResult :=
  match parsed with
  | none => .reprompt_end
  | some (h, m) =>
    let end_dt := combine_date_time d h m
    if end_dt ≤ start_dt then .reprompt_end
    else if db.check_conflicts room start_dt end_dt 0 ≠ [] then .reprompt_end
    else .toReason end_dt

/-- Admin-block reason step (src/bot.py `admin_block_reason`, lines
1164-1188): the stripped text, defaulted to the fixed fallback when
empty, becomes the block reason, and the block row is committed
immediately — there is no confirm step and no conflict re-check. -/
def admin_block_reason (db : BookingStorage) (room : String)
    (start_dt end_dt : Int) (text : String) (t : Int) :
    BookingStorage × Nat :=
  let reason := if text = "" then "блокировка" else text
  db.create_booking room start_dt end_dt none none none none true (some reason) t

/-! ## Reminder scheduler (src/bot.py lines 1458-1601) -/

/-- A one-shot job in the JobQueue: `run_once(reminder_job, when=delay,
data=..., name=...)`. -/
structure Job where
  name : String
  delay : Int
  booking_id : Nat
deriving DecidableEq, Repr

/-- Model of `schedule_reminder_for_booking` (src/bot.py lines
1458-1488): returns the job placed on the queue, or `none` when no
timer is created.  No timer is created when the JobQueue is absent,
when the row is missing, canceled, or a block, or when the fire time
`start - 1 day` is not strictly in the future
(`delay = fire - now <= 0`). -/
def schedule_reminder_for_booking (has_jq : Bool) (db : BookingStorage)
    (nowDt : Int) (booking_id : Nat) : Option Job :=
  if has_jq = false then none
  else
    match db.get_booking booking_id with
    | none => none
    | some row =>
      if row.canceled || row.is_block then none
      else
        let reminder_dt := ts_to_dt row.start_ts - 86400
        let delay := reminder_dt - nowDt
        if delay ≤ 0 then none
        else some { name := "reminder_" ++ toString booking_id,
                    delay := delay, booking_id := booking_id }

/-- Model of `reschedule_all_booking_reminders` (src/bot.py lines
1570-1601).  With no JobQueue it returns 0 and leaves the queue alone.
Otherwise every queued job whose name starts with the reminder naming
convention is removed, then for each row of `get_future_bookings` that
is neither canceled nor a block, `schedule_reminder_for_booking` is
called (appending its job to the queue when it creates one) and the
counter is incremented — incremented on every such row, whether or not
a job was created.  Returns the remaining queue with the new jobs, and
the counter. -/
def reschedule_all_booking_reminders (has_jq : Bool) (jobs : List Job)
    (db : BookingStorage) (nowDt : Int) : List Job × Nat :=
  if has_jq = false then (jobs, 0)
  else
    let kept := jobs.filter (fun j => !(j.name.startsWith "reminder_"))
    let rows := db.get_future_bookings (dt_to_ts nowDt)
    rows.foldl (fun acc b =>
      if b.canceled || b.is_block then acc
      else
        match schedule_reminder_for_booking true db nowDt b.id with
        | none => (acc.1, acc.2 + 1)
        | some j => (acc.1 ++ [j], acc.2 + 1)) (kept, 0)

/-! ## Bulk export / import (src/bot.py lines 1238-1454)

The export writes `get_all_bookings()` to CSV with every column
including `id`; the import clears the table (`DELETE FROM bookings`,
which keeps the AUTOINCREMENT sequence) and re-inserts each CSV row
WITHOUT its `id` column, so SQLite assigns fresh ids.  `import_coerce`
is the net effect of one row passing through CSV serialisation
(NULL prints as the empty string) and the import parsing
(`row.get(...) or ""` for text columns, `to_int` for numeric ones):
integer and flag columns survive unchanged, absent text columns come
back as the empty string, and the id is replaced by the fresh one. -/
def import_coerce (new_id : Nat) (b : Booking) : Booking :=
  { id := new_id, room := b.room, start_ts := b.start_ts,
    end_ts := b.end_ts, user_id := b.user_id,
    user_full_name := some (b.user_full_name.getD ""),
    user_contact := some (b.user_contact.getD ""),
    topic := some (b.topic.getD ""),
    is_block := b.is_block,
    block_reason := some (b.block_reason.getD ""),
    canceled := b.canceled, canceled_at := b.canceled_at,
    created_at := b.created_at }

/-- The insertion loop of `import_bookings_file` (src/bot.py lines
1383-1445): each incoming row is inserted with the next AUTOINCREMENT
id. -/
def insert_imported : BookingStorage → List Booking → BookingStorage
  | acc, [] => acc
  | acc, b :: rest =>
      insert_imported
        { rows := acc.rows ++ [import_coerce (acc.seq + 1) b],
          seq := acc.seq + 1 } rest

/-- Model of `import_bookings_file` applied to a CSV decoded into
`csv_rows`: the table is cleared (sequence preserved) and the rows are
re-inserted in order. -/
def import_bookings_file (db : BookingStorage) (csv_rows : List Booking) :
    BookingStorage :=
  insert_imported { rows := [], seq := db.seq } csv_rows

/-- The round trip of the spec: `replaceAll(queryAllRaw())` — export
the whole table and import it back into the same store. -/
def import_bookings_roundtrip (db : BookingStorage) : BookingStorage :=
  import_bookings_file db db.get_all_bookings

/-- The observable content of a row as it survives the CSV pipeline:
every column except `id`, with absent text columns read back as the
empty string. -/
def bookingContent (b : Booking) :
    String × Int × Int × Option Int × String × String × String × Bool ×
      String × Bool × Option Int × Int :=
  (b.room, b.start_ts, b.end_ts, b.user_id, b.user_full_name.getD "",
   b.user_contact.getD "", b.topic.getD "", b.is_block,
   b.block_reason.getD "", b.canceled, b.canceled_at, b.created_at)

/-! ## Derived abbreviations and concrete fixtures

`committed_row` names the row that `book_confirm` hands to
`create_booking`; the fixtures below are small concrete stores used to
instantiate the theorems. -/

/-- The row inserted by a successful confirm: the draft with the acting
user as owner, `is_block = 0`, no block reason, fresh id. -/
def committed_row (db : BookingStorage) (b : BookingDraft) (uid t : Int) :
    Booking :=
  { id := db.seq + 1, room := b.room, start_ts := dt_to_ts b.start_dt,
    end_ts := dt_to_ts b.end_dt, user_id := some uid,
    user_full_name := some b.user_full_name,
    user_contact := some b.user_contact, topic := b.topic,
    is_block := false, block_reason := none, canceled := false,
    canceled_at := none, created_at := t }

/-- Empty store with an untouched id sequence. -/
def emptyDB : BookingStorage := { rows := [], seq := 0 }

/-- A finished draft for a one-hour meeting. -/
def draftW : BookingDraft :=
  { room := "3 этаж", start_dt := combine_date_time 0 10 0,
    end_dt := combine_date_time 0 11 0, topic := none,
    user_full_name := "Иванов Иван", user_contact := "@ivan" }

/-- Active booking with a NULL topic, for the round-trip instance. -/
def bRt : Booking :=
  { id := 1, room := "3 этаж", start_ts := 100, end_ts := 200,
    user_id := some 5, user_full_name := some "Ann",
    user_contact := some "@a", topic := none, is_block := false,
    block_reason := none, canceled := false, canceled_at := none,
    created_at := 10 }

def dbRt : BookingStorage := { rows := [bRt], seq := 1 }

/-- Active booking owned by user 5, for the cancel instances. -/
def bCan : Booking :=
  { id := 1, room := "4 этаж", start_ts := 1000, end_ts := 2000,
    user_id := some 5, user_full_name := some "Ann",
    user_contact := some "@a", topic := some "sync", is_block := false,
    block_reason := none, canceled := false, canceled_at := none,
    created_at := 10 }

def dbCan : BookingStorage := { rows := [bCan], seq := 1 }

/-- Active non-block booking starting 7200 seconds (2 hours) after
clock 0, for the reminder instances. -/
def bSoon : Booking :=
  { id := 1, room := "3 этаж", start_ts := 7200, end_ts := 10800,
    user_id := some 7, user_full_name := some "Bob",
    user_contact := some "@b", topic := none, is_block := false,
    block_reason := none, canceled := false, canceled_at := none,
    created_at := 0 }

def dbSoon : BookingStorage := { rows := [bSoon], seq := 1 }

/-- A draft whose start instant 10:00 of day 0 lies before the clock
12:00 of day 0, for the past-start instance. -/
def draftPast : BookingDraft :=
  { room := "3 этаж", start_dt := combine_date_time 0 10 0,
    end_dt := combine_date_time 0 11 0, topic := none,
    user_full_name := "Кто-то", user_contact := "c" }
/-! ## Claims -/

/-- C1: for every store, room and candidate interval `[s, e)`, the
conflict query (with no exclusion) returns exactly the rows of that
room that are not canceled and whose interval `[start_ts, end_ts)`
satisfies NOT (end_ts <= s OR start_ts >= e).  In particular a row
with `end_ts = s` or `start_ts = e` (touching endpoints) fails the
right-hand side and is not returned, and a canceled row is never
returned. -/
theorem check_conflicts_exact (db : BookingStorage) (room : String)
    (s e : Int) (b : Booking) :
    b ∈ db.check_conflicts room s e 0 ↔
      b ∈ db.rows ∧ b.room = room ∧ b.canceled = false ∧
        ¬(b.end_ts ≤ s ∨ b.start_ts ≥ e) := by
  simp [BookingStorage.check_conflicts, dt_to_ts, List.mem_filter]

/-- C2: at the confirm step with CONFIRM_OK pressed and the draft
present, the conflict check is re-run against the final interval; if
any conflict exists the outcome is time-just-taken, no row is created
and the store is returned unchanged (the draft is discarded by the
handler); otherwise exactly one reservation row is appended and the
reminder scheduler is asked to arm a timer for the new id. -/
theorem book_confirm_race_guard (db : BookingStorage) (b : BookingDraft)
    (uid t : Int) :
    (db.check_conflicts b.room b.start_dt b.end_dt 0 ≠ [] →
      book_confirm db true (some b) uid t =
        (db, ConfirmOutcome.time_just_taken, none)) ∧
    (db.check_conflicts b.room b.start_dt b.end_dt 0 = [] →
      book_confirm db true (some b) uid t =
        ({ rows := db.rows ++ [committed_row db b uid t], seq := db.seq + 1 },
          ConfirmOutcome.committed (db.seq + 1), some (db.seq + 1))) := by
  constructor
  · intro h
    simp [book_confirm, h]
  · intro h
    simp [book_confirm, h, BookingStorage.create_booking, committed_row]

/-- Witness for C2: on the empty store the one-hour draft commits as
row 1 and the scheduler is asked to arm a timer for id 1. -/
theorem book_confirm_race_guard_witness :
    book_confirm emptyDB true (some draftW) 7 99 =
      ({ rows := [committed_row emptyDB draftW 7 99], seq := 1 },
        ConfirmOutcome.committed 1, some 1) :=
  (book_confirm_race_guard emptyDB draftW 7 99).2 rfl

/-- Mapping `bookingContent` over the rows produced by the import loop:
the imported copy of a row has the same content, so the loop appends
the contents of its input to the contents of the accumulator. -/
theorem insert_imported_content (l : List Booking) : ∀ acc : BookingStorage,
    (insert_imported acc l).rows.map bookingContent =
      acc.rows.map bookingContent ++ l.map bookingContent := by
  induction l with
  | nil => intro acc; simp [insert_imported]
  | cons b rest ih =>
    intro acc
    simp [insert_imported, ih, bookingContent, import_coerce]

/-- Every row coming out of the import loop either was already in the
accumulator or carries an id strictly above the accumulator sequence. -/
theorem insert_imported_fresh (l : List Booking) : ∀ (acc : BookingStorage),
    ∀ b2 ∈ (insert_imported acc l).rows, b2 ∈ acc.rows ∨ acc.seq < b2.id := by
  induction l with
  | nil => intro acc b2 hb; simp [insert_imported] at hb; exact Or.inl hb
  | cons b rest ih =>
    intro acc b2 hb
    rcases ih _ b2 hb with hmem | hgt
    · simp at hmem
      rcases hmem with hmem | hmem
      · exact Or.inl hmem
      · right
        rw [hmem]
        simp [import_coerce]
    · exact Or.inr (Nat.lt_of_succ_lt hgt)

/-- C3 (amended): the round trip `replaceAll(queryAllRaw())` preserves
the multiset of row contents — room, interval, owner, contact, topic,
block flag and reason, cancellation state and timestamps, with NULL
text columns read back as empty strings — but every re-inserted row
receives a fresh id strictly greater than the pre-import sequence
value (ids are not preserved). -/
theorem roundtrip_preserves_content_not_ids (db : BookingStorage) :
    ((import_bookings_roundtrip db).rows.map bookingContent).Perm
        (db.rows.map bookingContent) ∧
    (import_bookings_roundtrip db).rows.all
        (fun b2 => decide (db.seq < b2.id)) = true := by
  constructor
  · have h1 :
        (import_bookings_roundtrip db).rows.map bookingContent =
          (sortByStart db.rows).map bookingContent := by
      simp [import_bookings_roundtrip, import_bookings_file,
        BookingStorage.get_all_bookings, insert_imported_content]
    rw [h1]
    exact (List.mergeSort_perm db.rows _).map bookingContent
  · rw [List.all_eq_true]
    intro b2 hb
    rcases insert_imported_fresh _ _ b2 hb with hmem | hgt
    · simp at hmem
    · simpa using hgt

/-- Counterexample for C3: on a store holding one active row with id 1
(and a NULL topic), the round trip produces a store whose only row has
id 2, not 1 — DELETE does not reset the AUTOINCREMENT sequence and
the rows are re-inserted without their id column — and the NULL topic comes
back as the empty string.  The store is not observably identical. -/
theorem roundtrip_claim_false :
    (import_bookings_roundtrip dbRt).rows.map (fun b => b.id) = [2] ∧
    dbRt.rows.map (fun b => b.id) = [1] ∧
    (import_bookings_roundtrip dbRt).rows.map (fun b => b.topic) = [some ""] ∧
    dbRt.rows.map (fun b => b.topic) = [none] := by
  refine ⟨?_, rfl, ?_, rfl⟩ <;>
    simp [import_bookings_roundtrip, import_bookings_file,
      BookingStorage.get_all_bookings, sortByStart, insert_imported,
      import_coerce, dbRt, bRt]

/-- Counterexample for C4: end input 06:30 on day 0 with start 06:00 is
a valid hour:minute, is strictly after the start, makes the duration
30 minutes (at least the 10-minute minimum), does not exceed the
closing bound 24:00, and meets no conflict on the empty store — yet
the handler re-prompts at the end state, because of the additional
test rejecting end hours at or below WORK_START_HOUR. -/
theorem book_choose_end_claim_false :
    book_choose_end emptyDB "3 этаж" 0 (combine_date_time 0 6 0)
        (some (6, 30)) = EndStepResult.reprompt_end ∧
    (6 < 24 ∧ 30 < 60) ∧
    combine_date_time 0 6 0 < combine_date_time 0 6 30 ∧
    MIN_DURATION_MINUTES * 60 ≤
      combine_date_time 0 6 30 - combine_date_time 0 6 0 ∧
    combine_date_time 0 6 30 ≤ combine_date_time 0 24 0 ∧
    emptyDB.check_conflicts "3 этаж" (combine_date_time 0 6 0)
        (combine_date_time 0 6 30) 0 = [] := by
  refine ⟨?_, by decide, by decide, by decide, by decide, rfl⟩
  decide

/-- C4 (amended): in the end-time state, a valid hour:minute input
(hours from `%H:%M` parsing never exceed 23) is accepted — proceeding,
absent conflicts, to the topic state — if and only if its hour is
strictly greater than WORK_START_HOUR (or the input is literally
00:00, which the extra gate exempts but which then always fails the
after-start test within the working window), the end instant is
strictly after the chosen start, and the duration is at least
MIN_DURATION_MINUTES; the closing-bound test can never reject a parsed
time.  An unparsable input re-prompts. -/
theorem book_choose_end_accepts_iff (db : BookingStorage) (room : String)
    (d s : Int) (h m : Nat) (hh : h < 24) (hm : m < 60)
    (hc : db.check_conflicts room s (combine_date_time d h m) 0 = []) :
    (book_choose_end db room d s (some (h, m)) =
        EndStepResult.toTopic (combine_date_time d h m) ↔
      (WORK_START_HOUR < h ∨ (h = 0 ∧ m = 0)) ∧
        s < combine_date_time d h m ∧
        MIN_DURATION_MINUTES * 60 ≤ combine_date_time d h m - s) ∧
    book_choose_end db room d s none = EndStepResult.reprompt_end := by
  refine ⟨?_, rfl⟩
  simp only [book_choose_end, WORK_START_HOUR, WORK_END_HOUR,
    MIN_DURATION_MINUTES]
  split_ifs with h1 h2 h3 h4 <;>
    simp_all <;> omega

/-- Witness for C4 (amended): end input 10:30 with start 10:00 on the
empty store is accepted and the workflow proceeds to the topic state. -/
theorem book_choose_end_accepts_iff_witness :
    book_choose_end emptyDB "3 этаж" 0 (combine_date_time 0 10 0)
        (some (10, 30)) =
      EndStepResult.toTopic (combine_date_time 0 10 30) :=
  ((book_choose_end_accepts_iff emptyDB "3 этаж" 0 (combine_date_time 0 10 0)
      10 30 (by decide) (by decide) rfl).1).mpr (by decide)

/-- After the cancel UPDATE, every row still carrying the canceled id
is marked canceled. -/
theorem mem_cancel_id_canceled (db : BookingStorage) (t : Int) (id : Nat) :
    ∀ b2 ∈ (db.cancel_booking t id).rows, b2.id = id → b2.canceled = true := by
  intro b2 hb hid
  simp [BookingStorage.cancel_booking] at hb
  rcases hb with ⟨a, ha, hab⟩
  by_cases hcase : a.id = id
  · simp [hcase] at hab
    rw [hab.symm]
  · simp [hcase] at hab
    rw [hab.symm] at hid
    exact absurd hid hcase

/-- The cancel UPDATE rewrites the row the id lookup finds: the lookup
afterwards returns the same row marked canceled at clock `t`. -/
theorem get_booking_after_cancel (rows : List Booking) (t : Int) (id : Nat)
    (b : Booking)
    (hfind : rows.find? (fun x => x.id == id) = some b) :
    (rows.map (fun x =>
        if x.id = id then { x with canceled := true, canceled_at := some t }
        else x)).find? (fun x => x.id == id) =
      some { b with canceled := true, canceled_at := some t } := by
  induction rows with
  | nil => simp at hfind
  | cons a rest ih =>
    by_cases hcase : a.id = id
    · rw [List.find?_cons_of_pos _ (by simp [hcase])] at hfind
      simp only [List.map_cons, if_pos hcase]
      rw [List.find?_cons_of_pos _ (by simp [hcase])]
      simp only [Option.some.injEq] at hfind ⊢
      rw [hfind]
    · rw [List.find?_cons_of_neg _ (by simp [hcase])] at hfind
      simp only [List.map_cons, if_neg hcase]
      rw [List.find?_cons_of_neg _ (by simp [hcase])]
      exact ih hfind

/-- C5: once `cancel_booking` marks a row, no conflict query and no
future-bookings listing ever returns a row with that id again, but the
id lookup still returns the row (now marked with `canceled_at = t`)
and the raw full export still contains it. -/
theorem cancel_excludes_yet_retains (db : BookingStorage) (id : Nat)
    (t : Int) (b : Booking) (hfind : db.get_booking id = some b) :
    (∀ room s e b2,
      b2 ∈ (db.cancel_booking t id).check_conflicts room s e 0 →
        b2.id ≠ id) ∧
    (∀ uid nowT b2,
      b2 ∈ (db.cancel_booking t id).get_user_future_bookings uid nowT →
        b2.id ≠ id) ∧
    (db.cancel_booking t id).get_booking id =
      some { b with canceled := true, canceled_at := some t } ∧
    { b with canceled := true, canceled_at := some t } ∈
      (db.cancel_booking t id).get_all_bookings := by
  refine ⟨?_, ?_, ?_, ?_⟩
  · intro room s e b2 hb2 hid
    simp [BookingStorage.check_conflicts, List.mem_filter] at hb2
    have := mem_cancel_id_canceled db t id b2 hb2.1 hid
    simp [this] at hb2
  · intro uid nowT b2 hb2 hid
    simp only [BookingStorage.get_user_future_bookings, sortByStart,
      List.mem_mergeSort, List.mem_filter, decide_eq_true_eq] at hb2
    have := mem_cancel_id_canceled db t id b2 hb2.1 hid
    simp [this] at hb2
  · exact get_booking_after_cancel db.rows t id b hfind
  · have hfind2 : db.rows.find? (fun x => x.id == id) = some b := hfind
    have hpred := List.find?_some hfind2
    have hmem : b ∈ db.rows := List.mem_of_find?_eq_some hfind2
    have hid : b.id = id := by simpa using hpred
    simp only [BookingStorage.get_all_bookings, sortByStart,
      List.mem_mergeSort, BookingStorage.cancel_booking, List.mem_map]
    exact ⟨b, hmem, by simp [hid]⟩

/-- Witness for C5: canceling row 1 of the one-row store at clock 50
leaves it retrievable by id, marked canceled at 50. -/
theorem cancel_excludes_yet_retains_witness :
    (dbCan.cancel_booking 50 1).get_booking 1 =
      some { bCan with canceled := true, canceled_at := some 50 } :=
  (cancel_excludes_yet_retains dbCan 1 50 bCan rfl).2.2.1

/-- C6: for a found, still-active row, a cancel request whose actor is
the owner or an admin but whose reservation has already started fails
with the already-started outcome, and a cancel request by an actor who
is neither owner nor admin fails with the not-allowed outcome; in both
cases the returned store is the input store, so `canceled_at` is never
set.  (The source checks ownership before the started test, so an
unauthorized actor is reported not-allowed even for a past
reservation.) -/
theorem cancel_command_guards (db : BookingStorage) (uid : Int)
    (admins : List Int) (nowDt t : Int) (id : Nat) (row : Booking)
    (hget : db.get_booking id = some row) (hact : row.canceled = false) :
    ((row.user_id = some uid ∨ is_admin admins uid = true) →
      ts_to_dt row.start_ts ≤ nowDt →
      cancel_booking_command db uid admins nowDt t (some (some id)) =
        (db, CancelCmdResult.already_started)) ∧
    (row.user_id ≠ some uid → is_admin admins uid = false →
      cancel_booking_command db uid admins nowDt t (some (some id)) =
        (db, CancelCmdResult.not_allowed)) := by
  constructor
  · intro hown hstarted
    have hnotdenied : ¬(row.user_id ≠ some uid ∧ is_admin admins uid = false) := by
      rintro ⟨hne, hadmf⟩
      rcases hown with howner | hadm
      · exact hne howner
      · rw [hadm] at hadmf; exact Bool.noConfusion hadmf
    simp [cancel_booking_command, hget, hact, hnotdenied, hstarted]
  · intro hnotowner hnotadmin
    simp [cancel_booking_command, hget, hact, hnotowner, hnotadmin]

/-- Witness for C6: the owner (user 5) tries to cancel row 1 at clock
2000, after its start 1000 — the command reports already-started and
returns the store unchanged. -/
theorem cancel_command_guards_witness :
    cancel_booking_command dbCan 5 [] 2000 3000 (some (some 1)) =
      (dbCan, CancelCmdResult.already_started) :=
  (cancel_command_guards dbCan 5 [] 2000 3000 1 bCan rfl rfl).1
    (Or.inl rfl) (by decide)

/-- C7: the reminder arm never creates a timer for a missing row, a
canceled row, a block, or a row whose fire time `start - 1 day` is not
strictly after the current clock (`delay <= 0`). -/
theorem schedule_reminder_skips (has_jq : Bool) (db : BookingStorage)
    (nowDt : Int) (id : Nat) :
    (db.get_booking id = none →
      schedule_reminder_for_booking has_jq db nowDt id = none) ∧
    (∀ row, db.get_booking id = some row →
      (row.canceled = true →
        schedule_reminder_for_booking has_jq db nowDt id = none) ∧
      (row.is_block = true →
        schedule_reminder_for_booking has_jq db nowDt id = none) ∧
      (ts_to_dt row.start_ts - 86400 ≤ nowDt →
        schedule_reminder_for_booking has_jq db nowDt id = none)) := by
  cases has_jq with
  | false => exact ⟨fun _ => rfl, fun _ _ => ⟨fun _ => rfl, fun _ => rfl, fun _ => rfl⟩⟩
  | true =>
    refine ⟨fun hnone => by simp [schedule_reminder_for_booking, hnone], ?_⟩
    intro row hrow
    refine ⟨?_, ?_, ?_⟩
    · intro hcanc
      simp [schedule_reminder_for_booking, hrow, hcanc]
    · intro hblock
      simp [schedule_reminder_for_booking, hrow, hblock]
    · intro hlate
      simp only [ts_to_dt] at hlate
      have hcond : row.start_ts - 86400 - nowDt ≤ 0 := by omega
      simp [schedule_reminder_for_booking, hrow, ts_to_dt, hcond]

/-- Witness for C7 (the spec scenario): a booking starting 2 hours
after clock 0 with the 1-day lead time is never armed. -/
theorem schedule_reminder_skips_witness :
    schedule_reminder_for_booking true dbSoon 0 1 = none :=
  ((schedule_reminder_skips true dbSoon 0 1).2 bSoon rfl).2.2 (by decide)

/-- C8 at its failing input: one active, non-block booking starting
7200 seconds after clock 0 (within the 1-day lead time).  The rebuild
returns counter 1 while creating no timer at all — the counter is
incremented for every active, future, non-block row whether or not
`schedule_reminder_for_booking` actually armed one, contradicting the
claim (and the function docstring) that the return value is the number
of timers created. -/
theorem reschedule_count_overstates :
    reschedule_all_booking_reminders true [] dbSoon 0 = ([], 1) := by
  rfl

/-- C9: the admin-block workflow applies none of the booking policies:
the date step accepts every parsed date (no past or planning-horizon
test), the start step accepts every parsed time (no working-window
test), the end step accepts exactly when the end is strictly after the
start and the conflict query is empty (no window and no minimum
duration), and the reason step then immediately commits the block
row. -/
theorem admin_block_no_booking_policies (db : BookingStorage) (d : Int)
    (h1 m1 h2 m2 : Nat) (room text : String) (t : Int) :
    admin_block_choose_date (some d) = ABDateResult.toStart d ∧
    admin_block_choose_start d (some (h1, m1)) =
      ABStartResult.toEnd (combine_date_time d h1 m1) ∧
    (admin_block_choose_end db room d (combine_date_time d h1 m1)
        (some (h2, m2)) =
        ABEndResult.toReason (combine_date_time d h2 m2) ↔
      combine_date_time d h1 m1 < combine_date_time d h2 m2 ∧
        db.check_conflicts room (combine_date_time d h1 m1)
          (combine_date_time d h2 m2) 0 = []) ∧
    (combine_date_time d h1 m1 < combine_date_time d h2 m2 →
      db.check_conflicts room (combine_date_time d h1 m1)
          (combine_date_time d h2 m2) 0 = [] →
      admin_block_reason db room (combine_date_time d h1 m1)
          (combine_date_time d h2 m2) text t =
        ({ rows := db.rows ++
            [{ id := db.seq + 1, room := room,
               start_ts := combine_date_time d h1 m1,
               end_ts := combine_date_time d h2 m2, user_id := none,
               user_full_name := none, user_contact := none, topic := none,
               is_block := true,
               block_reason :=
                 some (if text = "" then "блокировка" else text),
               canceled := false, canceled_at := none, created_at := t }],
           seq := db.seq + 1 }, db.seq + 1)) := by
  refine ⟨rfl, rfl, ?_, ?_⟩
  · simp only [admin_block_choose_end]
    split_ifs with hle hcf
    · constructor
      · intro hcon; simp at hcon
      · intro hcon; exact absurd hcon.1 (by omega)
    · constructor
      · intro hcon; simp at hcon
      · intro hcon; exact absurd hcon.2 hcf
    · constructor
      · intro _; exact ⟨by omega, by simpa using hcf⟩
      · intro _; rfl
  · intro hlt hcf
    simp [admin_block_reason, BookingStorage.create_booking, dt_to_ts, hcf]

/-- Witness for C9: a block on day -400 (long before any present day)
from 03:00 to 03:05 — outside the working window, under the 10-minute
minimum — commits on the empty store. -/
theorem admin_block_no_booking_policies_witness :
    admin_block_reason emptyDB "3 этаж" (combine_date_time (-400) 3 0)
        (combine_date_time (-400) 3 5) "" 77 =
      ({ rows :=
          [{ id := 1, room := "3 этаж",
             start_ts := combine_date_time (-400) 3 0,
             end_ts := combine_date_time (-400) 3 5, user_id := none,
             user_full_name := none, user_contact := none, topic := none,
             is_block := true, block_reason := some "блокировка",
             canceled := false, canceled_at := none, created_at := 77 }],
         seq := 1 }, 1) :=
  (admin_block_no_booking_policies emptyDB (-400) 3 0 3 5 "3 этаж" "" 77).2.2.2
    (by decide) rfl

/-- C10: the booking workflow validates only the chosen date against
the past, not the start instant.  With the chosen date equal to today,
any in-window start time is accepted even when that instant is already
before the current clock, and a draft built on it commits (absent
conflicts) into a reservation whose start lies in the past. -/
theorem booking_accepts_past_start (db : BookingStorage) (room : String)
    (today nowDt : Int) (h m : Nat) (uid t : Int)
    (hw : WORK_START_HOUR ≤ h) (hu : h < WORK_END_HOUR)
    (hpast : combine_date_time today h m < nowDt) :
    book_choose_date today db room (some today) =
      DateStepResult.toStart today (db.get_bookings_for_day (some room) today) ∧
    book_choose_start today (some (h, m)) =
      StartStepResult.toEnd (combine_date_time today h m) ∧
    (∀ draft : BookingDraft, draft.start_dt = combine_date_time today h m →
      db.check_conflicts draft.room draft.start_dt draft.end_dt 0 = [] →
      book_confirm db true (some draft) uid t =
        ({ rows := db.rows ++ [committed_row db draft uid t],
           seq := db.seq + 1 },
          ConfirmOutcome.committed (db.seq + 1), some (db.seq + 1)) ∧
        (committed_row db draft uid t).start_ts < dt_to_ts nowDt) := by
  refine ⟨?_, ?_, ?_⟩
  · simp only [book_choose_date]
    rw [if_neg (by omega), if_neg (by simp [PLANNING_DAYS])]
  · simp only [book_choose_start]
    rw [if_neg (by omega)]
  · intro draft hstart hcf
    constructor
    · simp [book_confirm, hcf, BookingStorage.create_booking, committed_row]
    · simpa [committed_row, dt_to_ts, hstart] using hpast

/-- Witness for C10: on day 0 with the clock at 12:00, the start 10:00
(already two hours past) is accepted at the date and start steps, and
the draft commits on the empty store as row 1 with its start before
the clock. -/
theorem booking_accepts_past_start_witness :
    book_confirm emptyDB true (some draftPast) 1 5 =
      ({ rows := [committed_row emptyDB draftPast 1 5], seq := 1 },
        ConfirmOutcome.committed 1, some 1) ∧
      (committed_row emptyDB draftPast 1 5).start_ts <
        dt_to_ts (combine_date_time 0 12 0) :=
  (booking_accepts_past_start emptyDB "3 этаж" 0 (combine_date_time 0 12 0)
      10 0 1 5 (by decide) (by decide) (by decide)).2.2 draftPast rfl rfl
